import Mathlib

/- Verification development for the web-based testing agent locator
   resolution and self-correcting verification engine.  Strings are
   modelled as lists of characters; Python dict-shaped records become
   structures with optional fields; the browser, the DOM query and the
   Python syntax checker are oracles passed in as function parameters. -/

namespace WebAgent

/-- Character list of a string literal. -/
def chars (s : String) : List Char := s.data

/-- leadsWith pat s: pat is an initial segment of s. -/
def leadsWith : List Char → List Char → Bool
  | [], _ => true
  | _ :: _, [] => false
  | a :: as, b :: bs => a == b && leadsWith as bs

/-- containsSub pat s: pat occurs as a contiguous substring of s
    (models the Python expression pat in s). -/
def containsSub (pat : List Char) : List Char → Bool
  | [] => pat.isEmpty
  | c :: rest => leadsWith pat (c :: rest) || containsSub pat rest

/-- Fuelled scan of CPython str.replace: at each position, if the pattern
    matches, emit the replacement and skip past the match, otherwise copy
    one character.  Fuel bounds the number of scan steps; callers pass the
    length of the subject string. -/
def replaceAux (pat rep : List Char) : Nat → List Char → List Char
  | 0, s => s
  | _ + 1, [] => []
  | fuel + 1, c :: rest =>
    if leadsWith pat (c :: rest) then
      rep ++ replaceAux pat rep fuel ((c :: rest).drop pat.length)
    else
      c :: replaceAux pat rep fuel rest

/-- Fuelled count of the non-overlapping occurrences that the scan of
    replaceAux replaces. -/
def countAux (pat : List Char) : Nat → List Char → Nat
  | 0, _ => 0
  | _ + 1, [] => 0
  | fuel + 1, c :: rest =>
    if leadsWith pat (c :: rest) then
      1 + countAux pat fuel ((c :: rest).drop pat.length)
    else
      countAux pat fuel rest

/-- Python s.replace(pat, rep): replaces every non-overlapping occurrence,
    scanning left to right.  An empty pattern inserts the replacement before
    every character and at the end, as CPython does. -/
def pythonReplace (s pat rep : List Char) : List Char :=
  if pat.isEmpty then rep ++ s.flatMap (fun c => c :: rep)
  else replaceAux pat rep s.length s

/-- Python s.count(pat): non-overlapping occurrence count, matching the
    number of substitutions pythonReplace performs. -/
def pythonCount (s pat : List Char) : Nat :=
  if pat.isEmpty then s.length + 1
  else countAux pat s.length s

theorem leadsWith_length_le {pat s : List Char} (h : leadsWith pat s = true) :
    pat.length ≤ s.length := by
  induction pat generalizing s with
  | nil => simp
  | cons a as ih =>
    cases s with
    | nil => simp [leadsWith] at h
    | cons b bs =>
      simp only [leadsWith, Bool.and_eq_true] at h
      simpa using ih h.2

theorem replaceAux_of_count_zero (pat rep : List Char) :
    ∀ fuel s, countAux pat fuel s = 0 → replaceAux pat rep fuel s = s := by
  intro fuel
  induction fuel with
  | zero => intro s _; rfl
  | succ n ih =>
    intro s hc
    cases s with
    | nil => rfl
    | cons c rest =>
      by_cases hl : leadsWith pat (c :: rest) = true
      · simp [countAux, hl] at hc
      · simp only [replaceAux, hl, Bool.false_eq_true, if_false]
        simp only [countAux, hl, Bool.false_eq_true, if_false] at hc
        rw [ih rest hc]

theorem replaceAux_length (pat rep : List Char) (hp : pat ≠ []) :
    ∀ fuel s, s.length ≤ fuel →
      (replaceAux pat rep fuel s).length + countAux pat fuel s * pat.length
        = s.length + countAux pat fuel s * rep.length := by
  intro fuel
  induction fuel with
  | zero =>
    intro s hs
    simp [replaceAux, countAux]
  | succ n ih =>
    intro s hs
    cases s with
    | nil => simp [replaceAux, countAux]
    | cons c rest =>
      by_cases hl : leadsWith pat (c :: rest) = true
      · have hple : pat.length ≤ (c :: rest).length := leadsWith_length_le hl
        have hpat1 : 1 ≤ pat.length := by
          cases pat with
          | nil => exact absurd rfl hp
          | cons p ps => simp
        have hdrop : ((c :: rest).drop pat.length).length ≤ n := by
          rw [List.length_drop]
          have : (c :: rest).length ≤ n + 1 := hs
          omega
        have hrec := ih ((c :: rest).drop pat.length) hdrop
        simp only [replaceAux, countAux, hl, if_true]
        rw [List.length_append]
        have hdl : ((c :: rest).drop pat.length).length
            = (c :: rest).length - pat.length := List.length_drop _ _
        generalize hA : countAux pat n ((c :: rest).drop pat.length) * pat.length = A at hrec
        generalize hB : countAux pat n ((c :: rest).drop pat.length) * rep.length = B at hrec
        have h1 : (1 + countAux pat n ((c :: rest).drop pat.length)) * pat.length
            = pat.length + A := by rw [Nat.add_mul, Nat.one_mul, hA]
        have h2 : (1 + countAux pat n ((c :: rest).drop pat.length)) * rep.length
            = rep.length + B := by rw [Nat.add_mul, Nat.one_mul, hB]
        rw [h1, h2]
        rw [hdl] at hrec
        omega
      · have hrest : rest.length ≤ n := by
          have : (c :: rest).length ≤ n + 1 := hs
          simpa using this
        have hrec := ih rest hrest
        simp only [replaceAux, countAux, hl, Bool.false_eq_true, if_false]
        simp only [List.length_cons]
        omega

theorem pythonReplace_of_count_zero (s pat rep : List Char) (hp : pat ≠ [])
    (hc : pythonCount s pat = 0) : pythonReplace s pat rep = s := by
  have hpe : pat.isEmpty = false := by cases pat with
    | nil => exact absurd rfl hp
    | cons a as => rfl
  simp only [pythonCount, hpe, Bool.false_eq_true, if_false] at hc
  simp only [pythonReplace, hpe, Bool.false_eq_true, if_false]
  exact replaceAux_of_count_zero pat rep s.length s hc

/-- C1 (amended): the patch operation of the code (Python str.replace on the
    failing locator literal) replaces EVERY non-overlapping occurrence of
    originalLiteral, not only the one associated with the addressed locator
    call: with n occurrences, n copies of replacementLiteral are introduced,
    reflected in the length identity, and with zero occurrences the patch is
    a no-op. -/
theorem patch_replaces_all_occurrences (s pat rep : List Char) (hp : pat ≠ []) :
    (pythonCount s pat = 0 → pythonReplace s pat rep = s) ∧
    (pythonReplace s pat rep).length + pythonCount s pat * pat.length
      = s.length + pythonCount s pat * rep.length := by
  have hpe : pat.isEmpty = false := by cases pat with
    | nil => exact absurd rfl hp
    | cons a as => rfl
  constructor
  · exact fun hc => pythonReplace_of_count_zero s pat rep hp hc
  · simp only [pythonReplace, pythonCount, hpe, Bool.false_eq_true, if_false]
    exact replaceAux_length pat rep hp s.length s (Nat.le_refl _)

theorem patch_replaces_all_occurrences_witness :
    (pythonCount (chars "x = 1") (chars "page.locator(\"#a\")") = 0 →
      pythonReplace (chars "x = 1") (chars "page.locator(\"#a\")")
        (chars "page.locator(\".b\")") = chars "x = 1") ∧
    (pythonReplace (chars "x = 1") (chars "page.locator(\"#a\")")
        (chars "page.locator(\".b\")")).length
      + pythonCount (chars "x = 1") (chars "page.locator(\"#a\")")
        * (chars "page.locator(\"#a\")").length
      = (chars "x = 1").length
      + pythonCount (chars "x = 1") (chars "page.locator(\"#a\")")
        * (chars "page.locator(\".b\")").length :=
  patch_replaces_all_occurrences (chars "x = 1") (chars "page.locator(\"#a\")")
    (chars "page.locator(\".b\")") (by decide)

/-- C1 fails as stated: an artifact in which the original literal occurs
    twice has BOTH occurrences replaced, so two copies of the replacement
    literal are introduced, not exactly one. -/
theorem patch_two_occurrences_both_replaced :
    pythonCount (chars "a = page.locator(\"#a\"); b = page.locator(\"#a\")")
      (chars "page.locator(\"#a\")") = 2 ∧
    pythonCount (chars "a = page.locator(\"#a\"); b = page.locator(\"#a\")")
      (chars "page.locator(\".b\")") = 0 ∧
    pythonCount
      (pythonReplace (chars "a = page.locator(\"#a\"); b = page.locator(\"#a\")")
        (chars "page.locator(\"#a\")") (chars "page.locator(\".b\")"))
      (chars "page.locator(\".b\")") = 2 := by decide

/-- C5 (amended): re-applying the same substitution is a no-op PROVIDED the
    original literal no longer occurs in the patched artifact; the claim
    justification clause is a hypothesis, not a fact of str.replace. -/
theorem patch_idempotent_when_literal_absent (s pat rep : List Char) (hp : pat ≠ [])
    (h : pythonCount (pythonReplace s pat rep) pat = 0) :
    pythonReplace (pythonReplace s pat rep) pat rep = pythonReplace s pat rep :=
  pythonReplace_of_count_zero (pythonReplace s pat rep) pat rep hp h

theorem patch_idempotent_when_literal_absent_witness :
    pythonReplace
      (pythonReplace (chars "el = page.locator(\"#a\")")
        (chars "page.locator(\"#a\")") (chars "page.locator(\".b\")"))
      (chars "page.locator(\"#a\")") (chars "page.locator(\".b\")")
    = pythonReplace (chars "el = page.locator(\"#a\")")
        (chars "page.locator(\"#a\")") (chars "page.locator(\".b\")") :=
  patch_idempotent_when_literal_absent (chars "el = page.locator(\"#a\")")
    (chars "page.locator(\"#a\")") (chars "page.locator(\".b\")")
    (by decide) (by decide)

/-- C5 fails as stated: when the replacement literal contains the original
    literal, the second application changes the artifact again. -/
theorem patch_not_idempotent_in_general :
    pythonReplace (pythonReplace (chars "a") (chars "a") (chars "aa"))
      (chars "a") (chars "aa")
    ≠ pythonReplace (chars "a") (chars "a") (chars "aa") := by decide

/- ===== Locator strategy (src/utils/locator_strategy.py) ===== -/

/-- A locator suggested by the exploration phase (dict with optional keys). -/
structure SuggestedLoc where
  strategy : Option (List Char)
  value : Option (List Char)
  priority : Option Nat
deriving DecidableEq

/-- One discovered UI element.  Python falsiness of a missing or empty
    attribute string is modelled by the empty list; tag keeps its
    present/absent distinction because the source defaults it to "div". -/
structure Element where
  tag : Option (List Char)
  id : List Char
  name : List Char
  classAttr : List Char
  ariaLabel : List Char
  role : List Char
  text : List Char
  suggested_locators : List SuggestedLoc
deriving DecidableEq

/-- One generated locator candidate (dict built by _generate_locators). -/
structure Locator where
  strategy : List Char
  value : List Char
  priority : Nat
  playwright_code : List Char
deriving DecidableEq

/-- Whitespace-token splitter, accumulating the current token reversed;
    models Python str.split() with no argument. -/
def splitWsAux : List Char → List Char → List (List Char)
  | [], acc => if acc.isEmpty then [] else [acc.reverse]
  | c :: rest, acc =>
    if c.isWhitespace then
      if acc.isEmpty then splitWsAux rest [] else acc.reverse :: splitWsAux rest []
    else splitWsAux rest (c :: acc)

def splitWs (s : List Char) : List (List Char) := splitWsAux s []

/-- Python str.strip() with no argument: remove leading and trailing
    whitespace. -/
def stripWs (s : List Char) : List Char :=
  ((s.dropWhile Char.isWhitespace).reverse.dropWhile Char.isWhitespace).reverse

/-- _generate_xpath: prefer id, then name, then first class, else bare tag.
    (For a whitespace-only class the source would raise IndexError; the
    model returns the bare tag there, a case no claim exercises.) -/
def generate_xpath (e : Element) : List Char :=
  let tag := e.tag.getD (chars "div")
  if e.id ≠ [] then
    chars "//" ++ tag ++ chars "[@id=\x27" ++ e.id ++ chars "\x27]"
  else if e.name ≠ [] then
    chars "//" ++ tag ++ chars "[@name=\x27" ++ e.name ++ chars "\x27]"
  else if e.classAttr ≠ [] then
    match splitWs e.classAttr with
    | fc :: _ => chars "//" ++ tag ++ chars "[@class=\x27" ++ fc ++ chars "\x27]"
    | [] => chars "//" ++ tag
  else chars "//" ++ tag

def idCands (e : Element) : List Locator :=
  if e.id ≠ [] then
    [⟨chars "id", e.id, 1, chars "page.locator(\"#" ++ e.id ++ chars "\")"⟩]
  else []

def nameCands (e : Element) : List Locator :=
  if e.name ≠ [] then
    [⟨chars "name", e.name, 2,
      chars "page.locator(\"[name=\\\"" ++ e.name ++ chars "\\\"]\")"⟩]
  else []

def cssCands (e : Element) : List Locator :=
  if e.classAttr ≠ [] then
    match splitWs e.classAttr with
    | [] => []
    | fc :: _ =>
      [⟨chars "css", '.' :: fc, 3, chars "page.locator(\"." ++ fc ++ chars "\")"⟩]
  else []

def semCands (e : Element) : List Locator :=
  if e.ariaLabel ≠ [] then
    [⟨chars "semantic", e.ariaLabel, 2,
      chars "page.get_by_label(\"" ++ e.ariaLabel ++ chars "\")"⟩]
  else if e.role ≠ [] then
    [⟨chars "semantic", e.role, 3,
      chars "page.get_by_role(\"" ++ e.role ++ chars "\")"⟩]
  else []

def xpathCands (e : Element) : List Locator :=
  let xp := generate_xpath e
  [⟨chars "xpath", xp, 4, chars "page.locator(\"" ++ xp ++ chars "\")"⟩]

def textCands (e : Element) : List Locator :=
  if e.text ≠ [] then
    let t := (stripWs e.text).take 50
    if t ≠ [] then
      [⟨chars "text", t, 5, chars "page.get_by_text(\"" ++ t ++ chars "\")"⟩]
    else []
  else []

/-- Stable insertion: x goes before the first element of equal or greater
    priority already placed (elements placed earlier came later in the
    emission order), reproducing the stable Python sorted(key=priority). -/
def insertLoc (x : Locator) : List Locator → List Locator
  | [] => [x]
  | y :: ys => if x.priority ≤ y.priority then x :: y :: ys else y :: insertLoc x ys

def sortByPriority : List Locator → List Locator
  | [] => []
  | x :: xs => insertLoc x (sortByPriority xs)

/-- _generate_locators: emit candidates in source order, then stable-sort by
    priority. -/
def generate_locators (e : Element) : List Locator :=
  sortByPriority
    (idCands e ++ nameCands e ++ cssCands e ++ semCands e ++ xpathCands e ++ textCands e)

/-- A fallback entry of select_best_locator: either a suggested locator dict
    (exploration path) or a generated locator dict. -/
inductive FallbackItem where
  | fromSuggested (s : SuggestedLoc)
  | fromGenerated (l : Locator)
deriving DecidableEq

/-- Result dict of select_best_locator / resolve_element_locator; the error
    key is present only on the out-of-range path of resolve_element_locator. -/
structure BestLocator where
  strategy : List Char
  value : List Char
  confidence : List Char
  fallbacks : List FallbackItem
  error : Option (List Char)
deriving DecidableEq

def select_best_locator (e : Element) : BestLocator :=
  match e.suggested_locators with
  | best :: restSugg =>
    { strategy := best.strategy.getD (chars "css")
      value := best.value.getD []
      confidence := if best.priority.getD 5 ≤ 2 then chars "high" else chars "medium"
      fallbacks := (restSugg.take 2).map FallbackItem.fromSuggested
      error := none }
  | [] =>
    match generate_locators e with
    | [] =>
      { strategy := chars "xpath"
        value := chars "//" ++ e.tag.getD (chars "div")
        confidence := chars "low"
        fallbacks := []
        error := none }
    | best :: rest =>
      { strategy := best.strategy
        value := best.value
        confidence := if best.priority ≤ 2 then chars "high" else chars "medium"
        fallbacks := (rest.take 2).map FallbackItem.fromGenerated
        error := none }

def lowerStr (s : List Char) : List Char := s.map Char.toLower

/-- get_playwright_locator_code, reading the strategy and value keys of a
    locator dict. -/
def get_playwright_locator_code (strategy value : List Char) : List Char :=
  if strategy = chars "id" then chars "page.locator(\"#" ++ value ++ chars "\")"
  else if strategy = chars "name" then
    chars "page.locator(\"[name=\\\"" ++ value ++ chars "\\\"]\")"
  else if strategy = chars "css" then chars "page.locator(\"" ++ value ++ chars "\")"
  else if strategy = chars "xpath" then chars "page.locator(\"" ++ value ++ chars "\")"
  else if strategy = chars "semantic" then
    if containsSub (chars "aria-label") (lowerStr value)
        || containsSub (chars "label") (lowerStr value) then
      chars "page.get_by_label(\"" ++ value ++ chars "\")"
    else if containsSub (chars "button") (lowerStr value) then
      chars "page.get_by_role(\"button\", name=\"" ++ value ++ chars "\")"
    else chars "page.get_by_text(\"" ++ value ++ chars "\")"
  else if strategy = chars "text" then chars "page.get_by_text(\"" ++ value ++ chars "\")"
  else chars "page.locator(\"" ++ value ++ chars "\")"

structure ExplorationData where
  interactive_elements : List Element
deriving DecidableEq

def defaultElement : Element := ⟨none, [], [], [], [], [], [], []⟩

def resolve_element_locator (element_index : Int) (d : ExplorationData) : BestLocator :=
  let elements := d.interactive_elements
  if element_index < 0 ∨ (elements.length : Int) ≤ element_index then
    { strategy := chars "xpath"
      value := chars "//*"
      confidence := chars "low"
      fallbacks := []
      error := some (chars "Element index " ++ chars (toString element_index)
        ++ chars " out of range") }
  else
    select_best_locator (elements.getD element_index.toNat defaultElement)

/-- C10: an out-of-range element index (negative or at least the number of
    discovered elements) produces the xpath fallback locator with value //*,
    confidence low and an error message naming the index; the exploration
    data is read-only throughout (the embedding is a pure function of it). -/
theorem resolve_out_of_range_fallback (element_index : Int) (d : ExplorationData)
    (h : element_index < 0 ∨ (d.interactive_elements.length : Int) ≤ element_index) :
    resolve_element_locator element_index d =
      { strategy := chars "xpath"
        value := chars "//*"
        confidence := chars "low"
        fallbacks := []
        error := some (chars "Element index " ++ chars (toString element_index)
          ++ chars " out of range") } := by
  simp only [resolve_element_locator, if_pos h]

theorem resolve_out_of_range_fallback_witness :
    resolve_element_locator (-1) ⟨[defaultElement]⟩ =
      { strategy := chars "xpath"
        value := chars "//*"
        confidence := chars "low"
        fallbacks := []
        error := some (chars "Element index " ++ chars (toString (-1 : Int))
          ++ chars " out of range") } :=
  resolve_out_of_range_fallback (-1) ⟨[defaultElement]⟩ (by decide)

/-- C4 (amended): an element with no identifying attribute and no text
    yields exactly one candidate, the bare-tag XPath with priority 4; but
    select_best_locator labels it with confidence medium — the low label is
    produced only by the unreachable empty-candidate branch, because an
    XPath candidate is always generated. -/
theorem empty_element_single_xpath_candidate_medium (tg : List Char) :
    generate_locators ⟨some tg, [], [], [], [], [], [], []⟩ =
      [⟨chars "xpath", chars "//" ++ tg, 4,
        chars "page.locator(\"" ++ (chars "//" ++ tg) ++ chars "\")"⟩] ∧
    select_best_locator ⟨some tg, [], [], [], [], [], [], []⟩ =
      { strategy := chars "xpath"
        value := chars "//" ++ tg
        confidence := chars "medium"
        fallbacks := []
        error := none } := by
  constructor <;> rfl

/-- C4 fails as stated: for a bare div element the sole bare-tag XPath
    candidate is reported with confidence medium, not low. -/
theorem empty_element_confidence_is_medium_not_low :
    (select_best_locator ⟨some (chars "div"), [], [], [], [], [], [], []⟩).confidence
      = chars "medium" ∧
    (select_best_locator ⟨some (chars "div"), [], [], [], [], [], [], []⟩).confidence
      ≠ chars "low" ∧
    (generate_locators ⟨some (chars "div"), [], [], [], [], [], [], []⟩).length = 1 := by
  refine ⟨rfl, by decide, rfl⟩

/- ===== Renderer agreement (C7) ===== -/

theorem mem_insertLoc {a x : Locator} {l : List Locator} :
    a ∈ insertLoc x l ↔ a = x ∨ a ∈ l := by
  induction l with
  | nil => simp [insertLoc]
  | cons y ys ih =>
    by_cases h : x.priority ≤ y.priority
    · simp [insertLoc, h]
    · simp only [insertLoc, h, if_false, List.mem_cons, ih]
      tauto

theorem mem_sortByPriority {a : Locator} {l : List Locator} :
    a ∈ sortByPriority l ↔ a ∈ l := by
  induction l with
  | nil => simp [sortByPriority]
  | cons x xs ih => simp [sortByPriority, mem_insertLoc, ih]

/-- C7 (amended): the code literal embedded when a candidate is generated
    and the rendering produced by get_playwright_locator_code agree for the
    id, name, css, xpath and text strategies; the semantic strategy is the
    exception established by the counterexample. -/
theorem renderers_agree_on_nonsemantic (e : Element) (l : Locator)
    (hmem : l ∈ generate_locators e) (hsem : l.strategy ≠ chars "semantic") :
    get_playwright_locator_code l.strategy l.value = l.playwright_code := by
  simp only [generate_locators, mem_sortByPriority, List.mem_append] at hmem
  rcases hmem with ((((h | h) | h) | h) | h) | h
  · simp only [idCands] at h
    split at h
    · rcases List.mem_singleton.mp h with rfl
      rfl
    · exact absurd h (List.not_mem_nil _)
  · simp only [nameCands] at h
    split at h
    · rcases List.mem_singleton.mp h with rfl
      rfl
    · exact absurd h (List.not_mem_nil _)
  · simp only [cssCands] at h
    split at h
    · split at h
      · exact absurd h (List.not_mem_nil _)
      · rcases List.mem_singleton.mp h with rfl
        rfl
    · exact absurd h (List.not_mem_nil _)
  · simp only [semCands] at h
    split at h
    · rcases List.mem_singleton.mp h with rfl
      exact absurd rfl hsem
    · split at h
      · rcases List.mem_singleton.mp h with rfl
        exact absurd rfl hsem
      · exact absurd h (List.not_mem_nil _)
  · simp only [xpathCands] at h
    rcases List.mem_singleton.mp h with rfl
    rfl
  · simp only [textCands] at h
    split at h
    · split at h
      · rcases List.mem_singleton.mp h with rfl
        rfl
      · exact absurd h (List.not_mem_nil _)
    · exact absurd h (List.not_mem_nil _)

theorem renderers_agree_on_nonsemantic_witness :
    get_playwright_locator_code
      (⟨chars "id", chars "a", 1, chars "page.locator(\"#a\")"⟩ : Locator).strategy
      (⟨chars "id", chars "a", 1, chars "page.locator(\"#a\")"⟩ : Locator).value
    = (⟨chars "id", chars "a", 1, chars "page.locator(\"#a\")"⟩ : Locator).playwright_code :=
  renderers_agree_on_nonsemantic ⟨some (chars "input"), chars "a", [], [], [], [], [], []⟩
    ⟨chars "id", chars "a", 1, chars "page.locator(\"#a\")"⟩ (by decide) (by decide)

/-- C7 fails as stated: a semantic candidate generated from an aria-label is
    embedded as a get_by_label call, but get_playwright_locator_code renders
    the same strategy and value as a get_by_text call whenever the value does
    not contain the word label. -/
theorem renderers_disagree_on_semantic :
    ((generate_locators ⟨some (chars "input"), [], [], [], chars "Search", [], [], []⟩).headD
        ⟨[], [], 0, []⟩).strategy = chars "semantic" ∧
    ((generate_locators ⟨some (chars "input"), [], [], [], chars "Search", [], [], []⟩).headD
        ⟨[], [], 0, []⟩).playwright_code = chars "page.get_by_label(\"Search\")" ∧
    get_playwright_locator_code (chars "semantic") (chars "Search")
      = chars "page.get_by_text(\"Search\")" ∧
    get_playwright_locator_code (chars "semantic") (chars "Search")
      ≠ ((generate_locators ⟨some (chars "input"), [], [], [], chars "Search", [], [], []⟩).headD
        ⟨[], [], 0, []⟩).playwright_code := by
  refine ⟨rfl, rfl, by decide, by decide⟩

/- ===== Automatic locator correction (C3) ===== -/

/-- The elif chain of auto_correct_locator recognising the strategy of a
    failed locator string. -/
def detect_failed_strategy (failed : List Char) : Option (List Char) :=
  if containsSub (chars "get_by_text") failed then some (chars "text")
  else if containsSub (chars "get_by_label") failed then some (chars "semantic")
  else if containsSub (chars "locator(\"#") failed then some (chars "id")
  else if containsSub (chars "locator(\"[name=") failed then some (chars "name")
  else if containsSub (chars "locator(\".") failed then some (chars "css")
  else if containsSub (chars "locator(\"//") failed then some (chars "xpath")
  else none

/-- auto_correct_locator: when the failed strategy is recognised, return the
    first candidate of the full ranked list whose strategy differs; when the
    scan finds none or the strategy is unrecognised, fall through to the
    first candidate of the list; None only when no candidate exists. -/
def auto_correct_locator (failed_locator : List Char) (element_data : Element) :
    Option (List Char) :=
  let all_locators := generate_locators element_data
  let picked : Option (List Char) :=
    match detect_failed_strategy failed_locator with
    | some fs =>
      match all_locators.find? (fun l => l.strategy ≠ fs) with
      | some l => some l.playwright_code
      | none => none
    | none => none
  match picked with
  | some pc => some pc
  | none =>
    match all_locators with
    | [] => none
    | l :: _ => some l.playwright_code

/-- Modelled from the spec claim C3 wording: locate the failing candidate by
    strategy in the ranked list and select the first candidate AFTER it whose
    strategy differs; if none remains, wrap around to the head of the list. -/
def claim_select (failed : List Char) (e : Element) : Option (List Char) :=
  let all := generate_locators e
  match detect_failed_strategy failed with
  | some fs =>
    match all.findIdx? (fun l => l.strategy = fs) with
    | some i =>
      match (all.drop (i + 1)).find? (fun l => l.strategy ≠ fs) with
      | some l => some l.playwright_code
      | none => all.head?.map (fun l => l.playwright_code)
    | none => all.head?.map (fun l => l.playwright_code)
  | none => all.head?.map (fun l => l.playwright_code)

/-- Modelled from the amended claim: scan the FULL ranked list from the
    beginning (not from after the failing position) for the first candidate
    of a different strategy; otherwise take the head of the list. -/
def amended_select (failed : List Char) (e : Element) : Option (List Char) :=
  let all := generate_locators e
  match detect_failed_strategy failed with
  | some fs =>
    match (all.filter (fun l => l.strategy ≠ fs)).head? with
    | some l => some l.playwright_code
    | none => all.head?.map (fun l => l.playwright_code)
  | none => all.head?.map (fun l => l.playwright_code)

theorem find?_eq_head?_filter (p : Locator → Bool) (l : List Locator) :
    l.find? p = (l.filter p).head? := by
  induction l with
  | nil => rfl
  | cons x xs ih =>
    cases h : p x with
    | true =>
      rw [List.find?_cons_of_pos _ h, List.filter_cons_of_pos h, List.head?_cons]
    | false =>
      rw [List.find?_cons_of_neg _ (by simp [h]), List.filter_cons_of_neg (by simp [h]), ih]

/-- C3 (amended): for every failed locator and element, the replacement is
    the first candidate of the full ranked list (scanning from the start,
    not from after the failing candidate) whose strategy differs from the
    detected failing strategy; when the strategy is unrecognised or no
    differing candidate exists, the head of the list is returned. -/
theorem auto_correct_scans_from_list_start (failed : List Char) (e : Element) :
    auto_correct_locator failed e = amended_select failed e := by
  unfold auto_correct_locator amended_select
  cases hd : detect_failed_strategy failed with
  | none =>
    simp only
    cases generate_locators e <;> rfl
  | some fs =>
    simp only
    rw [find?_eq_head?_filter]
    cases hh : ((generate_locators e).filter (fun l => l.strategy ≠ fs)).head? with
    | none =>
      simp only
      cases generate_locators e <;> rfl
    | some l => rfl

/-- C3 fails as stated: for an element with both id and name, a failing
    name locator is corrected to the id candidate, which precedes the
    failing candidate in rank order, whereas the claim prescribes the first
    differing-strategy candidate after it (here the xpath candidate). -/
theorem auto_correct_picks_earlier_candidate :
    auto_correct_locator (chars "page.locator(\"[name=\\\"n\\\"]\")")
      ⟨some (chars "input"), chars "a", chars "n", [], [], [], [], []⟩
      = some (chars "page.locator(\"#a\")") ∧
    claim_select (chars "page.locator(\"[name=\\\"n\\\"]\")")
      ⟨some (chars "input"), chars "a", chars "n", [], [], [], [], []⟩
      = some (chars "page.locator(\"//input[@id=\x27a\x27]\")") ∧
    auto_correct_locator (chars "page.locator(\"[name=\\\"n\\\"]\")")
      ⟨some (chars "input"), chars "a", chars "n", [], [], [], [], []⟩
      ≠ claim_select (chars "page.locator(\"[name=\\\"n\\\"]\")")
      ⟨some (chars "input"), chars "a", chars "n", [], [], [], [], []⟩ := by
  refine ⟨by decide, by decide, by decide⟩

/- ===== Code verifier (src/utils/code_verifier.py) ===== -/

/-- The object the injected JavaScript check returns: either the result of
    document.querySelector (found, visible, tagName) or, when the query
    threw inside the page, found false together with the caught message. -/
structure QueryResult where
  found : Bool
  visible : Bool
  tagName : Option (List Char)
  errJs : Option (List Char)
deriving DecidableEq

/-- The browser collaborator: the current page url when a page is open,
    plus oracles for navigation and for executing the element-check script
    on a cleaned selector.  An Except.error models a raised exception. -/
structure Browser where
  pageUrl : Option (List Char)
  nav : List Char → Except (List Char) Unit
  query : List Char → Except (List Char) QueryResult

/-- Result dict of verify_locator; keys absent in a branch are none. -/
structure LocResult where
  status : List Char
  found : Option Bool
  visible : Option Bool
  tagName : Option (List Char)
  confidence : Option (List Char)
  error : Option (List Char)
  suggestion : Option (List Char)
deriving DecidableEq

def isQuote (c : Char) : Bool := c == '"' || c == Char.ofNat 39

/-- Match, at the current position, the regex pre["..X.."] followed by a
    closing parenthesis, where pre ends with the opening parenthesis of the
    call; returns the quoted body.  Mirrors the patterns
    locator\(["...]\), get_by_text\(...\) and get_by_label\(...\). -/
def matchQuotedArgAt (pre : List Char) (s : List Char) : Option (List Char) :=
  if leadsWith pre s then
    match s.drop pre.length with
    | q :: rest =>
      if isQuote q then
        let body := rest.takeWhile (fun c => !(isQuote c))
        match rest.drop body.length with
        | q2 :: c :: _ =>
          if isQuote q2 && c == ')' && !body.isEmpty then some body else none
        | _ => none
      else none
    | [] => none
  else none

/-- Left-to-right regex search for matchQuotedArgAt. -/
def searchQuotedArg (pre : List Char) : List Char → Option (List Char)
  | [] => none
  | c :: rest =>
    match matchQuotedArgAt pre (c :: rest) with
    | some b => some b
    | none => searchQuotedArg pre rest

/-- _extract_selector_from_code: a locator() argument is returned wrapped in
    double quotes; get_by_text and get_by_label arguments are rewritten to
    the XPath probes the source builds for them. -/
def extract_selector_from_code (locator_code : List Char) : Option (List Char) :=
  match searchQuotedArg (chars "locator(") locator_code with
  | some body => some ('"' :: body ++ ['"'])
  | none =>
    match searchQuotedArg (chars "get_by_text(") locator_code with
    | some t =>
      some (chars "\"//*[contains(text(), \\\"" ++ t ++ chars "\\\")]\"")
    | none =>
      match searchQuotedArg (chars "get_by_label(") locator_code with
      | some lb =>
        some (chars "\"//label[contains(text(), \\\"" ++ lb
          ++ chars "\\\")]//following-sibling::*[1] | //*[@aria-label=\\\"" ++ lb
          ++ chars "\\\"]\"")
      | none => none

/-- Python selector.strip of the two quote characters. -/
def stripQuotesEnds (s : List Char) : List Char :=
  ((s.dropWhile isQuote).reverse.dropWhile isQuote).reverse

def browserUnavailableResult : LocResult :=
  { status := chars "error", found := none, visible := none, tagName := none
    confidence := none
    error := some (chars "Browser not available for verification")
    suggestion := some (chars "Ensure browser is launched") }

/-- verify_locator: returns the result dict together with the browser after
    any navigation it performed. -/
def verify_locator (browser : Option Browser) (locator_code page_url : List Char) :
    LocResult × Option Browser :=
  match browser with
  | none => (browserUnavailableResult, none)
  | some b =>
    match b.pageUrl with
    | none => (browserUnavailableResult, some b)
    | some current_url =>
      match (if current_url ≠ page_url then b.nav page_url else Except.ok ()) with
      | Except.error e =>
        ({ status := chars "error", found := none, visible := none, tagName := none
           confidence := none, error := some e
           suggestion := some (chars "Browser navigation or execution failed") }, some b)
      | Except.ok _ =>
        let b1 := if current_url ≠ page_url then { b with pageUrl := some page_url } else b
        match extract_selector_from_code locator_code with
        | none =>
          ({ status := chars "error", found := none, visible := none, tagName := none
             confidence := none
             error := some (chars "Could not extract selector from locator code")
             suggestion := some (chars "Use standard Playwright locator syntax") }, some b1)
        | some selector =>
          match b1.query (stripQuotesEnds selector) with
          | Except.error e =>
            ({ status := chars "error", found := none, visible := none, tagName := none
               confidence := none, error := some e
               suggestion := some (chars "Locator syntax may be invalid") }, some b1)
          | Except.ok r =>
            if r.found then
              ({ status := chars "success", found := some true, visible := some r.visible
                 tagName := r.tagName
                 confidence := some (if r.visible then chars "high" else chars "medium")
                 error := none, suggestion := none }, some b1)
            else
              ({ status := chars "error", found := some false, visible := none
                 tagName := none, confidence := none
                 error := some (r.errJs.getD (chars "Element not found"))
                 suggestion := some
                   (chars "Try alternative locator strategy or verify element exists") },
               some b1)

/-- C8 (amended): against a live page already at the target url with an
    extractable selector — found and visible gives status success with
    confidence high; found but not visible gives status success with
    confidence medium; not found gives status error (the same status string
    as the exception branch) with found recorded false and the page error
    message preserved; a raised query exception is captured as data in the
    error field of the result (the embedding is total, nothing escapes). -/
theorem verify_locator_outcome_cases (b : Browser) (page_url locator_code selector : List Char)
    (hpage : b.pageUrl = some page_url)
    (hext : extract_selector_from_code locator_code = some selector) :
    (∀ r : QueryResult, b.query (stripQuotesEnds selector) = Except.ok r →
      (r.found = true →
        (verify_locator (some b) locator_code page_url).1.status = chars "success" ∧
        (verify_locator (some b) locator_code page_url).1.confidence
          = some (if r.visible then chars "high" else chars "medium")) ∧
      (r.found = false →
        (verify_locator (some b) locator_code page_url).1.status = chars "error" ∧
        (verify_locator (some b) locator_code page_url).1.found = some false ∧
        (verify_locator (some b) locator_code page_url).1.error
          = some (r.errJs.getD (chars "Element not found")))) ∧
    (∀ e : List Char, b.query (stripQuotesEnds selector) = Except.error e →
      (verify_locator (some b) locator_code page_url).1.status = chars "error" ∧
      (verify_locator (some b) locator_code page_url).1.error = some e) := by
  have hv : verify_locator (some b) locator_code page_url
      = (match b.query (stripQuotesEnds selector) with
        | Except.error e =>
          ({ status := chars "error", found := none, visible := none, tagName := none
             confidence := none, error := some e
             suggestion := some (chars "Locator syntax may be invalid") }, some b)
        | Except.ok r =>
          if r.found then
            ({ status := chars "success", found := some true, visible := some r.visible
               tagName := r.tagName
               confidence := some (if r.visible then chars "high" else chars "medium")
               error := none, suggestion := none }, some b)
          else
            ({ status := chars "error", found := some false, visible := none
               tagName := none, confidence := none
               error := some (r.errJs.getD (chars "Element not found"))
               suggestion := some
                 (chars "Try alternative locator strategy or verify element exists") },
             some b)) := by
    simp [verify_locator, hpage, hext]
  constructor
  · intro r hq
    constructor
    · intro hf
      rw [hv, hq]
      simp [hf]
    · intro hf
      rw [hv, hq]
      simp [hf]
  · intro e hq
    rw [hv, hq]
    exact ⟨rfl, rfl⟩

def witnessBrowserFound : Browser :=
  { pageUrl := some (chars "http://u")
    nav := fun _ => Except.ok ()
    query := fun _ => Except.ok ⟨true, true, some (chars "DIV"), none⟩ }

theorem verify_locator_outcome_cases_witness :
    (verify_locator (some witnessBrowserFound) (chars "page.locator(\"#a\")")
        (chars "http://u")).1.status = chars "success" ∧
    (verify_locator (some witnessBrowserFound) (chars "page.locator(\"#a\")")
        (chars "http://u")).1.confidence
      = some (if (true : Bool) then chars "high" else chars "medium") := by
  have h := (verify_locator_outcome_cases witnessBrowserFound (chars "http://u")
    (chars "page.locator(\"#a\")") (chars "\"#a\"") rfl (by decide)).1
    ⟨true, true, some (chars "DIV"), none⟩ rfl
  exact h.1 rfl

def notFoundBrowser : Browser :=
  { pageUrl := some (chars "http://u")
    nav := fun _ => Except.ok ()
    query := fun _ => Except.ok ⟨false, false, none, none⟩ }

def raisingBrowser : Browser :=
  { pageUrl := some (chars "http://u")
    nav := fun _ => Except.ok ()
    query := fun _ => Except.error (chars "Page.evaluate: Execution context was destroyed") }

/-- C8 fails as stated: a not-found element yields status error, not a
    distinct notFound status — it is the very status string the exception
    branch also returns, so the two outcomes are not distinguished by
    status. -/
theorem verify_locator_notfound_status_is_error :
    (verify_locator (some notFoundBrowser) (chars "page.locator(\"#a\")")
        (chars "http://u")).1.status = chars "error" ∧
    (verify_locator (some notFoundBrowser) (chars "page.locator(\"#a\")")
        (chars "http://u")).1.status ≠ chars "notFound" ∧
    (verify_locator (some raisingBrowser) (chars "page.locator(\"#a\")")
        (chars "http://u")).1.status
      = (verify_locator (some notFoundBrowser) (chars "page.locator(\"#a\")")
        (chars "http://u")).1.status := by
  refine ⟨by decide, by decide, by decide⟩

/- ===== Whole-artifact verification and the correction loop ===== -/

/-- Result dict of verify_code_syntax.  Parsing Python source is outside the
    embedding, so the checker itself is an oracle parameter everywhere; only
    the status key is ever branched on. -/
structure SynResult where
  status : List Char
  valid : Bool
  error : Option (List Char)
deriving DecidableEq

def isWordChar (c : Char) : Bool := c.isAlphanum || c == '_'

/-- Match, at the current position, the regex page\.locator\([^)]+\) (pre is
    the literal call prefix up to and including the opening parenthesis);
    returns the full match and the remainder after it. -/
def matchCallAt (pre : List Char) (s : List Char) : Option (List Char × List Char) :=
  if leadsWith pre s then
    let after := s.drop pre.length
    let body := after.takeWhile (fun c => c != ')')
    if body.isEmpty then none
    else
      match after.drop body.length with
      | ')' :: rest2 => some (pre ++ body ++ [')'], rest2)
      | _ => none
  else none

/-- Match, at the current position, the regex page\.get_by_\w+\([^)]+\). -/
def matchGetByAt (s : List Char) : Option (List Char × List Char) :=
  if leadsWith (chars "page.get_by_") s then
    let after := s.drop 12
    let w := after.takeWhile isWordChar
    if w.isEmpty then none
    else
      match after.drop w.length with
      | '(' :: rest =>
        let body := rest.takeWhile (fun c => c != ')')
        if body.isEmpty then none
        else
          match rest.drop body.length with
          | ')' :: rest2 =>
            some (chars "page.get_by_" ++ w ++ '(' :: (body ++ [')']), rest2)
          | _ => none
      | _ => none
  else none

/-- re.findall: non-overlapping matches, scanning left to right.  Fuel is
    the length of the subject; every step consumes at least one character. -/
def findAllAux (matcher : List Char → Option (List Char × List Char)) :
    Nat → List Char → List (List Char)
  | 0, _ => []
  | _ + 1, [] => []
  | fuel + 1, c :: rest =>
    match matcher (c :: rest) with
    | some (m, rem) => m :: findAllAux matcher fuel rem
    | none => findAllAux matcher fuel rest

/-- _extract_locators_from_code: all page.locator(...) matches first, then
    all page.get_by_*(...) matches. -/
def extract_locators_from_code (code : List Char) : List (List Char) :=
  findAllAux (matchCallAt (chars "page.locator(")) code.length code
    ++ findAllAux matchGetByAt code.length code

/-- One entry of the locator_checks list. -/
structure LocatorCheck where
  locator : List Char
  result : LocResult
deriving DecidableEq

/-- The verification report dict built by verify_test_code. -/
structure Report where
  synCheck : Option SynResult
  locator_checks : List LocatorCheck
  overall_status : List Char
  issues : List (List Char)
  suggestions : List (List Char)
deriving DecidableEq

def hasPage : Option Browser → Bool
  | none => false
  | some b => b.pageUrl.isSome

/-- The loop body of verify_test_code over one extracted locator,
    threading (checks, issues, suggestions, browser). -/
def checkOneLocator (page_url : List Char)
    (acc : List LocatorCheck × List (List Char) × List (List Char) × Option Browser)
    (loc : List Char) :
    List LocatorCheck × List (List Char) × List (List Char) × Option Browser :=
  let (checks, issues, suggs, br) := acc
  if hasPage br then
    let vr := verify_locator br loc page_url
    let checks' := checks ++ [⟨loc, vr.1⟩]
    if vr.1.status ≠ chars "success" then
      (checks', issues ++ [chars "Locator failed: " ++ loc],
       suggs ++ [vr.1.suggestion.getD []], vr.2)
    else (checks', issues, suggs, vr.2)
  else acc

/-- The locator-check loop of verify_test_code over the extracted locators,
    starting from empty accumulators. -/
def vtcFold (page_url : List Char) (browser : Option Browser)
    (locators : List (List Char)) :
    List LocatorCheck × List (List Char) × List (List Char) × Option Browser :=
  locators.foldl (checkOneLocator page_url) ([], [], [], browser)

/-- verify_test_code: syntax gate first, then per-locator checks (only when
    a live page exists), then the overall status derived from the issue
    count against the extracted locator count. -/
def verify_test_code (checkSyn : List Char → SynResult) (browser : Option Browser)
    (test_code page_url : List Char) : Report × Option Browser :=
  if (checkSyn test_code).status ≠ chars "success" then
    ({ synCheck := some (checkSyn test_code), locator_checks := [],
       overall_status := chars "error"
       issues := [chars "Syntax error in generated code"], suggestions := [] }, browser)
  else
    ({ synCheck := some (checkSyn test_code)
       locator_checks := (vtcFold page_url browser (extract_locators_from_code test_code)).1
       overall_status :=
         if (vtcFold page_url browser (extract_locators_from_code test_code)).2.1.isEmpty then
           chars "success"
         else if (vtcFold page_url browser (extract_locators_from_code test_code)).2.1.length
             < (extract_locators_from_code test_code).length then chars "partial"
         else chars "error"
       issues := (vtcFold page_url browser (extract_locators_from_code test_code)).2.1
       suggestions := (vtcFold page_url browser (extract_locators_from_code test_code)).2.2.1 },
     (vtcFold page_url browser (extract_locators_from_code test_code)).2.2.2)

/-- _find_element_index_for_locator: first related index whose element id
    (as #id) or name occurs inside the locator text. -/
def find_element_index_for_locator (locator_code : List Char)
    (element_indices : List Nat) (explo : List Element) : Option Nat :=
  element_indices.find? (fun idx =>
    decide (idx < explo.length) &&
      (let element := explo.getD idx defaultElement
       (decide (element.id ≠ []) && containsSub ('#' :: element.id) locator_code)
        || (decide (element.name ≠ []) && containsSub element.name locator_code)))

/-- State threaded through the correction loop of _verify_and_correct_code.
    reverifies instruments the number of re-verification calls and is
    touched nowhere else. -/
structure VCState where
  code : List Char
  verification : Report
  attempts : Nat
  browser : Option Browser
  reverifies : Nat

/-- Handling of a single failing check inside a correction pass: resolve
    the element, ask auto_correct_locator for a replacement and, when one
    non-empty replacement exists, substitute it into the artifact with
    str.replace and count the attempt. -/
def correctOne (related : List Nat) (explo : List Element)
    (acc : List Char × Nat) (check : LocatorCheck) : List Char × Nat :=
  if check.result.status ≠ chars "success" then
    match find_element_index_for_locator check.locator related explo with
    | some element_idx =>
      let element := explo.getD element_idx defaultElement
      match auto_correct_locator check.locator element with
      | some corrected =>
        if corrected ≠ [] then (pythonReplace acc.1 check.locator corrected, acc.2 + 1)
        else acc
      | none => acc
    | none => acc
  else acc

/-- One correction pass over every recorded locator check. -/
def correctionPass (related : List Nat) (explo : List Element) (st : VCState) : VCState :=
  let folded := st.verification.locator_checks.foldl (correctOne related explo)
    (st.code, st.attempts)
  { st with code := folded.1, attempts := folded.2 }

/-- The body of one iteration of the for attempt in range loop: run a
    correction pass, then re-verify exactly when the cumulative attempt
    count is positive. -/
def correctionStep (checkSyn : List Char → SynResult) (related : List Nat)
    (explo : List Element) (page_url : List Char) (st : VCState) : VCState :=
  if 0 < (correctionPass related explo st).attempts then
    { code := (correctionPass related explo st).code
      verification := (verify_test_code checkSyn (correctionPass related explo st).browser
        (correctionPass related explo st).code page_url).1
      attempts := (correctionPass related explo st).attempts
      browser := (verify_test_code checkSyn (correctionPass related explo st).browser
        (correctionPass related explo st).code page_url).2
      reverifies := (correctionPass related explo st).reverifies + 1 }
  else correctionPass related explo st

/-- The for attempt in range(max_corrections) loop with its break on
    success. -/
def correctionLoop (checkSyn : List Char → SynResult) (related : List Nat)
    (explo : List Element) (page_url : List Char) : Nat → VCState → VCState
  | 0, st => st
  | n + 1, st =>
    if st.verification.overall_status = chars "success" then st
    else correctionLoop checkSyn related explo page_url n
      (correctionStep checkSyn related explo page_url st)

/-- The default of the max_corrections parameter in the source. -/
def defaultMaxCorrections : Nat := 2

/-- Result dict of _verify_and_correct_code (test_id omitted: it is copied
    from the input test case and never computed). -/
structure VCResult where
  status : List Char
  verification : Report
  corrections_applied : Nat
  corrected_code : Option (List Char)
  reverifies : Nat

/-- Starting state of the loop: the artifact, the initial verification
    report, zero attempts and the browser as the first verification left
    it. -/
def vcStart (checkSyn : List Char → SynResult) (browser : Option Browser)
    (test_code page_url : List Char) : VCState :=
  ⟨test_code, (verify_test_code checkSyn browser test_code page_url).1, 0,
   (verify_test_code checkSyn browser test_code page_url).2, 0⟩

/-- The state after the full bounded correction loop. -/
def vcFinal (checkSyn : List Char → SynResult) (browser : Option Browser)
    (test_code : List Char) (related : List Nat) (explo : List Element)
    (page_url : List Char) (max_corrections : Nat) : VCState :=
  correctionLoop checkSyn related explo page_url max_corrections
    (vcStart checkSyn browser test_code page_url)

def verify_and_correct_code (checkSyn : List Char → SynResult) (browser : Option Browser)
    (test_code : List Char) (related : List Nat) (explo : List Element)
    (page_url : List Char) (max_corrections : Nat) : VCResult :=
  if (verify_test_code checkSyn browser test_code page_url).1.overall_status
      = chars "success" then
    { status := chars "success"
      verification := (verify_test_code checkSyn browser test_code page_url).1
      corrections_applied := 0, corrected_code := none, reverifies := 0 }
  else
    { status :=
        if (vcFinal checkSyn browser test_code related explo page_url
            max_corrections).verification.overall_status = chars "success" then
          chars "success"
        else chars "partial"
      verification := (vcFinal checkSyn browser test_code related explo page_url
        max_corrections).verification
      corrections_applied := (vcFinal checkSyn browser test_code related explo page_url
        max_corrections).attempts
      corrected_code :=
        if 0 < (vcFinal checkSyn browser test_code related explo page_url
            max_corrections).attempts then
          some (vcFinal checkSyn browser test_code related explo page_url
            max_corrections).code
        else none
      reverifies := (vcFinal checkSyn browser test_code related explo page_url
        max_corrections).reverifies }

theorem correctionPass_of_no_checks (related : List Nat) (explo : List Element)
    (st : VCState) (h : st.verification.locator_checks = []) :
    correctionPass related explo st = st := by
  unfold correctionPass
  rw [h]
  rfl

theorem correctionStep_of_no_checks (cs : List Char → SynResult) (related : List Nat)
    (explo : List Element) (pu : List Char) (st : VCState)
    (hc : st.verification.locator_checks = []) (ha : st.attempts = 0) :
    correctionStep cs related explo pu st = st := by
  unfold correctionStep
  rw [correctionPass_of_no_checks related explo st hc, ha]
  rw [if_neg (Nat.lt_irrefl 0)]

theorem correctionLoop_of_no_checks (cs : List Char → SynResult) (related : List Nat)
    (explo : List Element) (pu : List Char) :
    ∀ n (st : VCState), st.verification.locator_checks = [] → st.attempts = 0 →
      correctionLoop cs related explo pu n st = st := by
  intro n
  induction n with
  | zero => intro st _ _; rfl
  | succ n ih =>
    intro st hc ha
    unfold correctionLoop
    by_cases hs : st.verification.overall_status = chars "success"
    · rw [if_pos hs]
    · rw [if_neg hs, correctionStep_of_no_checks cs related explo pu st hc ha]
      exact ih st hc ha

theorem correctionPass_reverifies (related : List Nat) (explo : List Element)
    (st : VCState) : (correctionPass related explo st).reverifies = st.reverifies := rfl

theorem correctionStep_reverifies_le (cs : List Char → SynResult) (related : List Nat)
    (explo : List Element) (pu : List Char) (st : VCState) :
    (correctionStep cs related explo pu st).reverifies ≤ st.reverifies + 1 := by
  unfold correctionStep
  by_cases ha : 0 < (correctionPass related explo st).attempts
  · rw [if_pos ha]
    rw [correctionPass_reverifies related explo st]
  · rw [if_neg ha]
    rw [correctionPass_reverifies related explo st]
    omega

theorem correctionLoop_reverifies_le (cs : List Char → SynResult) (related : List Nat)
    (explo : List Element) (pu : List Char) :
    ∀ n (st : VCState),
      (correctionLoop cs related explo pu n st).reverifies ≤ st.reverifies + n := by
  intro n
  induction n with
  | zero => intro st; exact Nat.le_refl _
  | succ n ih =>
    intro st
    unfold correctionLoop
    by_cases hs : st.verification.overall_status = chars "success"
    · rw [if_pos hs]; omega
    · rw [if_neg hs]
      have h1 := ih (correctionStep cs related explo pu st)
      have h2 := correctionStep_reverifies_le cs related explo pu st
      omega

/-- C6: the correction loop re-verifies at most max_corrections times (the
    source default of the parameter being 2) no matter what the oracles return,
    and a pass that starts with an overall success report terminates the
    loop immediately with the state unchanged. -/
theorem correction_loop_bounded (cs : List Char → SynResult) (browser : Option Browser)
    (test_code : List Char) (related : List Nat) (explo : List Element)
    (pu : List Char) (mc : Nat) :
    (verify_and_correct_code cs browser test_code related explo pu mc).reverifies ≤ mc ∧
    (∀ n (st : VCState), st.verification.overall_status = chars "success" →
      correctionLoop cs related explo pu n st = st) ∧
    defaultMaxCorrections = 2 := by
  refine ⟨?_, ?_, rfl⟩
  · unfold verify_and_correct_code
    by_cases h0 : (verify_test_code cs browser test_code pu).1.overall_status
        = chars "success"
    · rw [if_pos h0]
      exact Nat.zero_le _
    · rw [if_neg h0]
      have := correctionLoop_reverifies_le cs related explo pu mc
        (vcStart cs browser test_code pu)
      simpa [vcFinal, vcStart] using this
  · intro n st h
    cases n with
    | zero => rfl
    | succ n =>
      unfold correctionLoop
      rw [if_pos h]

theorem correction_loop_bounded_witness :
    (verify_and_correct_code (fun _ => ⟨chars "success", true, none⟩) none
      (chars "x = 1") [] [] (chars "u") 2).reverifies ≤ 2 ∧
    correctionLoop (fun _ => ⟨chars "success", true, none⟩) [] [] (chars "u") 1
      ⟨[], ⟨none, [], chars "success", [], []⟩, 0, none, 0⟩
      = ⟨[], ⟨none, [], chars "success", [], []⟩, 0, none, 0⟩ :=
  ⟨(correction_loop_bounded (fun _ => ⟨chars "success", true, none⟩) none
      (chars "x = 1") [] [] (chars "u") 2).1,
   (correction_loop_bounded (fun _ => ⟨chars "success", true, none⟩) none
      (chars "x = 1") [] [] (chars "u") 2).2.1 1
      ⟨[], ⟨none, [], chars "success", [], []⟩, 0, none, 0⟩ (by decide)⟩

/-- C9: a syntactically invalid artifact short-circuits: the report carries
    overall status error with an empty locator-check list, and the whole
    verify-and-correct pipeline applies zero corrections and returns no
    corrected code. -/
theorem syn_error_short_circuits (cs : List Char → SynResult) (browser : Option Browser)
    (test_code : List Char) (related : List Nat) (explo : List Element)
    (pu : List Char) (mc : Nat)
    (h : (cs test_code).status ≠ chars "success") :
    (verify_and_correct_code cs browser test_code related explo pu mc).verification.overall_status
      = chars "error" ∧
    (verify_and_correct_code cs browser test_code related explo pu mc).verification.locator_checks
      = [] ∧
    (verify_and_correct_code cs browser test_code related explo pu mc).corrections_applied = 0 ∧
    (verify_and_correct_code cs browser test_code related explo pu mc).corrected_code = none := by
  have hv : verify_test_code cs browser test_code pu
      = ({ synCheck := some (cs test_code), locator_checks := [],
           overall_status := chars "error"
           issues := [chars "Syntax error in generated code"], suggestions := [] },
         browser) := by
    unfold verify_test_code
    rw [if_pos h]
  have hov : (verify_test_code cs browser test_code pu).1.overall_status
      = chars "error" := by rw [hv]
  have hstart_checks : (vcStart cs browser test_code pu).verification.locator_checks
      = [] := by
    unfold vcStart
    rw [hv]
  have hfin : vcFinal cs browser test_code related explo pu mc
      = vcStart cs browser test_code pu :=
    correctionLoop_of_no_checks cs related explo pu mc _ hstart_checks rfl
  unfold verify_and_correct_code
  rw [hov, if_neg (by decide : ¬(chars "error" = chars "success")), hfin]
  exact ⟨hov, hstart_checks, rfl, rfl⟩

theorem syn_error_short_circuits_witness :
    (verify_and_correct_code
        (fun _ => ⟨chars "error", false, some (chars "invalid literal")⟩) none
        (chars "def f(:") [] [] (chars "u") 2).verification.overall_status
      = chars "error" ∧
    (verify_and_correct_code
        (fun _ => ⟨chars "error", false, some (chars "invalid literal")⟩) none
        (chars "def f(:") [] [] (chars "u") 2).verification.locator_checks = [] ∧
    (verify_and_correct_code
        (fun _ => ⟨chars "error", false, some (chars "invalid literal")⟩) none
        (chars "def f(:") [] [] (chars "u") 2).corrections_applied = 0 ∧
    (verify_and_correct_code
        (fun _ => ⟨chars "error", false, some (chars "invalid literal")⟩) none
        (chars "def f(:") [] [] (chars "u") 2).corrected_code = none :=
  syn_error_short_circuits (fun _ => ⟨chars "error", false, some (chars "invalid literal")⟩)
    none (chars "def f(:") [] [] (chars "u") 2 (by decide)

theorem foldl_checkOne_no_page (pu : List Char) :
    ∀ (locs : List (List Char)) (checks : List LocatorCheck) (issues suggs : List (List Char))
      (br : Option Browser), hasPage br = false →
      locs.foldl (checkOneLocator pu) (checks, issues, suggs, br)
        = (checks, issues, suggs, br) := by
  intro locs
  induction locs with
  | nil => intros; rfl
  | cons l ls ih =>
    intro checks issues suggs br hbr
    have hstep : checkOneLocator pu (checks, issues, suggs, br) l
        = (checks, issues, suggs, br) := by
      simp [checkOneLocator, hbr]
    rw [List.foldl_cons, hstep]
    exact ih checks issues suggs br hbr

theorem verify_test_code_no_page (cs : List Char → SynResult) (br : Option Browser)
    (tc pu : List Char) (hbr : hasPage br = false)
    (hsyn : (cs tc).status = chars "success") :
    verify_test_code cs br tc pu
      = ({ synCheck := some (cs tc), locator_checks := [],
           overall_status := chars "success", issues := [], suggestions := [] }, br) := by
  have hfold : vtcFold pu br (extract_locators_from_code tc) = ([], [], [], br) :=
    foldl_checkOne_no_page pu (extract_locators_from_code tc) [] [] [] br hbr
  unfold verify_test_code
  rw [if_neg (fun hne => hne hsyn), hfold]
  rfl

theorem verify_locator_no_page (br : Option Browser) (lc pu : List Char)
    (hbr : hasPage br = false) :
    (verify_locator br lc pu).1 = browserUnavailableResult := by
  cases br with
  | none => rfl
  | some b =>
    cases hp : b.pageUrl with
    | none => simp [verify_locator, hp]
    | some u => simp [hasPage, hp] at hbr

/-- C2 (amended): with no browser or no live page, a direct verify_locator
    call does return status error with the distinguishing reason recorded in
    browserUnavailableResult, but verify_test_code on a syntactically valid
    artifact performs no locator checks at all — the check list is empty,
    nothing is marked skipped — and the empty issue list makes the overall
    status success, not error; zero corrections are attempted. -/
theorem unavailable_verifier_vacuous_success (cs : List Char → SynResult)
    (browser : Option Browser) (tc : List Char) (related : List Nat)
    (explo : List Element) (pu mc_lc : List Char) (mc : Nat)
    (hbr : hasPage browser = false) (hsyn : (cs tc).status = chars "success") :
    (verify_and_correct_code cs browser tc related explo pu mc).verification.overall_status
      = chars "success" ∧
    (verify_and_correct_code cs browser tc related explo pu mc).verification.locator_checks
      = [] ∧
    (verify_and_correct_code cs browser tc related explo pu mc).corrections_applied = 0 ∧
    (verify_locator browser mc_lc pu).1 = browserUnavailableResult := by
  have hv := verify_test_code_no_page cs browser tc pu hbr hsyn
  have hov : (verify_test_code cs browser tc pu).1.overall_status
      = chars "success" := by rw [hv]
  unfold verify_and_correct_code
  rw [if_pos hov]
  refine ⟨hov, ?_, rfl, verify_locator_no_page browser mc_lc pu hbr⟩
  rw [hv]

theorem unavailable_verifier_vacuous_success_witness :
    (verify_and_correct_code (fun _ => ⟨chars "success", true, none⟩) none
        (chars "el = page.locator(\"#a\")") [] [] (chars "u") 2).verification.overall_status
      = chars "success" ∧
    (verify_and_correct_code (fun _ => ⟨chars "success", true, none⟩) none
        (chars "el = page.locator(\"#a\")") [] [] (chars "u") 2).verification.locator_checks
      = [] ∧
    (verify_and_correct_code (fun _ => ⟨chars "success", true, none⟩) none
        (chars "el = page.locator(\"#a\")") [] [] (chars "u") 2).corrections_applied = 0 ∧
    (verify_locator none (chars "page.locator(\"#a\")") (chars "u")).1
      = browserUnavailableResult :=
  unavailable_verifier_vacuous_success (fun _ => ⟨chars "success", true, none⟩) none
    (chars "el = page.locator(\"#a\")") [] [] (chars "u")
    (chars "page.locator(\"#a\")") 2 (by decide) (by decide)

/-- C2 fails as stated: with the live verifier unavailable and a valid
    artifact that does contain a locator call, the overall status of the report
    is success, not error, and the check list is empty rather than each
    check being marked skipped. -/
theorem unavailable_verifier_reports_success_not_error :
    extract_locators_from_code (chars "el = page.locator(\"#a\")") ≠ [] ∧
    (verify_and_correct_code (fun _ => ⟨chars "success", true, none⟩) none
        (chars "el = page.locator(\"#a\")") [] [] (chars "u") 2).verification.overall_status
      = chars "success" ∧
    (verify_and_correct_code (fun _ => ⟨chars "success", true, none⟩) none
        (chars "el = page.locator(\"#a\")") [] [] (chars "u") 2).verification.overall_status
      ≠ chars "error" ∧
    (verify_and_correct_code (fun _ => ⟨chars "success", true, none⟩) none
        (chars "el = page.locator(\"#a\")") [] [] (chars "u") 2).verification.locator_checks
      = [] := by
  refine ⟨by decide, by decide, by decide, by decide⟩

end WebAgent
